import Mathlib

/-!
Verification development for the `1kx_hook` token-transfer policy program
(`programs/1kx_hook/src/lib.rs`). The program enforces a per-wallet balance
cap on token transfers (with an exempt dev wallet) and manages the cap via a
timelocked propose/execute/cancel governance workflow, plus immediate
authority rotation and a versioned config-migration stub.

Identities (Solana public keys) are modelled as natural numbers; `u64` fields
are natural numbers with explicit saturation at `2 ^ 64 - 1` where the source
uses `saturating_add`; `i64` timestamps are integers. Fallible entrypoints
return `Except HookError`. The Anchor `#[account(constraint = ...)]`
authorization guards run before each governance handler body, so each
governance function here checks the caller first, mirroring the `Accounts`
struct constraints in the source.
-/

namespace OneKxHook

/-- Identities (public keys), modelled abstractly. -/
abbrev Pubkey := Nat

/-- The token-2022 program id (`TOKEN_2022_PROGRAM_ID` in the source): an
arbitrary but fixed distinguished identity. -/
def TOKEN_2022_PROGRAM_ID : Pubkey := 2022

/-- Largest value of a Rust `u64`. -/
def U64_MAX : Nat := 2 ^ 64 - 1

/-- Rust `u64::saturating_add`. -/
def saturatingAdd (a b : Nat) : Nat := min (a + b) U64_MAX

/-- `const WALLET_CAP_RAW: u64 = 5_000_000_000` (lib.rs line 12). -/
def WALLET_CAP_RAW : Nat := 5000000000

/-- `let max_reasonable_cap = 100_000_000_000u64` (lib.rs line 138). -/
def MAX_REASONABLE_CAP : Nat := 100000000000

/-- `let timelock_duration = 48 * 60 * 60` seconds (lib.rs line 142). -/
def TIMELOCK_DURATION : Int := 48 * 60 * 60

/-- The `HookError` enum (lib.rs lines 483-505). -/
inductive HookError where
  | WalletCapExceeded
  | InsufficientAccountSpace
  | UnauthorizedGovernance
  | InvalidWalletCap
  | NoPendingUpdate
  | TimelockNotExpired
  | InvalidAccountOwner
  | InvalidMigrationVersion
  | UnsupportedVersion
  | UnsupportedMigration
  deriving Repr, DecidableEq

/-- The `PendingCapUpdate` struct (lib.rs lines 436-441). -/
structure PendingCapUpdate where
  new_cap : Nat
  proposed_at : Int
  execution_time : Int
  deriving Repr, DecidableEq

/-- The `HookConfig` account (lib.rs lines 427-434): the persisted policy
record for one token. -/
structure HookConfig where
  version : Nat
  dev_wallet : Pubkey
  wallet_cap_raw : Nat
  governance_authority : Pubkey
  pending_cap_update : Option PendingCapUpdate
  deriving Repr, DecidableEq

/-- A parsed SPL token account (the fields of
`spl_token_2022::state::Account` the program reads): the wallet that owns the
token account and its current balance. -/
structure TokenAccount where
  owner : Pubkey
  amount : Nat
  deriving Repr, DecidableEq

/-- The `initialize` instruction (lib.rs lines 22-30): creates the config
with `version = 1`, the default cap, and no pending update. -/
def initConfig (dev_wallet governance_authority : Pubkey) : HookConfig :=
  { version := 1
    dev_wallet := dev_wallet
    wallet_cap_raw := WALLET_CAP_RAW
    governance_authority := governance_authority
    pending_cap_update := none }

/-- The `transfer_hook` instruction (lib.rs lines 32-60): the pre-check
transfer path. `source_program_owner`, `mint_program_owner` and
`destination_program_owner` are the program owners of the three accounts
(checked against `TOKEN_2022_PROGRAM_ID` in source order: source,
destination, mint); `destination` is the parsed destination token account. -/
def transfer_hook (source_program_owner mint_program_owner destination_program_owner : Pubkey)
    (config : HookConfig) (destination : TokenAccount) (amount : Nat) :
    Except HookError Unit :=
  if source_program_owner ≠ TOKEN_2022_PROGRAM_ID then .error .InvalidAccountOwner
  else if destination_program_owner ≠ TOKEN_2022_PROGRAM_ID then .error .InvalidAccountOwner
  else if mint_program_owner ≠ TOKEN_2022_PROGRAM_ID then .error .InvalidAccountOwner
  else if destination.owner = config.dev_wallet then .ok ()
  else if saturatingAdd destination.amount amount ≤ config.wallet_cap_raw then .ok ()
  else .error .WalletCapExceeded

/-- The `execute` instruction (lib.rs lines 63-92): the settlement path
required by the SPL transfer-hook interface. Its body duplicates
`transfer_hook` in the source; it is embedded separately, mirroring that
duplication. -/
def execute (source_program_owner mint_program_owner destination_program_owner : Pubkey)
    (config : HookConfig) (destination : TokenAccount) (amount : Nat) :
    Except HookError Unit :=
  if source_program_owner ≠ TOKEN_2022_PROGRAM_ID then .error .InvalidAccountOwner
  else if destination_program_owner ≠ TOKEN_2022_PROGRAM_ID then .error .InvalidAccountOwner
  else if mint_program_owner ≠ TOKEN_2022_PROGRAM_ID then .error .InvalidAccountOwner
  else if destination.owner = config.dev_wallet then .ok ()
  else if saturatingAdd destination.amount amount ≤ config.wallet_cap_raw then .ok ()
  else .error .WalletCapExceeded

/-- The `propose_wallet_cap_update` instruction (lib.rs lines 127-160).
The caller check embeds the `ProposeWalletCapUpdate` account constraint
(lib.rs line 353), which Anchor evaluates before the handler runs. -/
def propose_wallet_cap_update (config : HookConfig) (caller : Pubkey) (new_cap : Nat)
    (now : Int) : Except HookError HookConfig :=
  if caller ≠ config.governance_authority then .error .UnauthorizedGovernance
  else if new_cap = 0 then .error .InvalidWalletCap
  else if MAX_REASONABLE_CAP < new_cap then .error .InvalidWalletCap
  else .ok { config with pending_cap_update := some ⟨new_cap, now, now + TIMELOCK_DURATION⟩ }

/-- The `execute_wallet_cap_update` instruction (lib.rs lines 163-189), with
the `ExecuteWalletCapUpdate` account constraint (lib.rs line 369) embedded as
the caller check. -/
def execute_wallet_cap_update (config : HookConfig) (caller : Pubkey) (now : Int) :
    Except HookError HookConfig :=
  if caller ≠ config.governance_authority then .error .UnauthorizedGovernance
  else match config.pending_cap_update with
  | none => .error .NoPendingUpdate
  | some pu =>
    if now < pu.execution_time then .error .TimelockNotExpired
    else .ok { config with wallet_cap_raw := pu.new_cap, pending_cap_update := none }

/-- The `cancel_wallet_cap_update` instruction (lib.rs lines 192-211), with
the `CancelWalletCapUpdate` account constraint (lib.rs line 385) embedded as
the caller check. -/
def cancel_wallet_cap_update (config : HookConfig) (caller : Pubkey) :
    Except HookError HookConfig :=
  if caller ≠ config.governance_authority then .error .UnauthorizedGovernance
  else match config.pending_cap_update with
  | none => .error .NoPendingUpdate
  | some _ => .ok { config with pending_cap_update := none }

/-- The `update_governance_authority` instruction (lib.rs lines 214-230),
with the `UpdateGovernanceAuthority` account constraint (lib.rs line 401)
embedded as the caller check. -/
def update_governance_authority (config : HookConfig) (caller : Pubkey)
    (new_governance_authority : Pubkey) : Except HookError HookConfig :=
  if caller ≠ config.governance_authority then .error .UnauthorizedGovernance
  else .ok { config with governance_authority := new_governance_authority }

/-- The `migrate_config` instruction (lib.rs lines 233-257), with the
`MigrateConfig` account constraint (lib.rs line 417) embedded as the caller
check. The version-specific `match` has no registered migration arm, so after
both version requires pass it always returns `UnsupportedMigration`. -/
def migrate_config (config : HookConfig) (caller : Pubkey) (target_version : Nat) :
    Except HookError HookConfig :=
  if caller ≠ config.governance_authority then .error .UnauthorizedGovernance
  else if target_version ≤ config.version then .error .InvalidMigrationVersion
  else if 1 < target_version then .error .UnsupportedVersion
  else .error .UnsupportedMigration

/-- A governance operation together with its caller and call-time inputs. -/
inductive GovOp where
  | proposeOp (caller : Pubkey) (new_cap : Nat) (now : Int)
  | executeCapOp (caller : Pubkey) (now : Int)
  | cancelOp (caller : Pubkey)
  | rotateOp (caller : Pubkey) (new_governance_authority : Pubkey)
  | migrateOp (caller : Pubkey) (target_version : Nat)
  deriving Repr, DecidableEq

/-- The caller identity of a governance operation. -/
def GovOp.caller : GovOp → Pubkey
  | .proposeOp c _ _ => c
  | .executeCapOp c _ => c
  | .cancelOp c => c
  | .rotateOp c _ => c
  | .migrateOp c _ => c

/-- Dispatch a governance operation to the corresponding instruction. -/
def runOp (config : HookConfig) : GovOp → Except HookError HookConfig
  | .proposeOp c new_cap now => propose_wallet_cap_update config c new_cap now
  | .executeCapOp c now => execute_wallet_cap_update config c now
  | .cancelOp c => cancel_wallet_cap_update config c
  | .rotateOp c a => update_governance_authority config c a
  | .migrateOp c v => migrate_config config c v

/-- The state after a governance operation: the new config on success, the
old config on failure (a failed Solana instruction reverts all account
mutations). -/
def applyOp (config : HookConfig) (op : GovOp) : HookConfig :=
  match runOp config op with
  | .ok c => c
  | .error _ => config

/-- Configs reachable from `initialize` by any sequence of governance
operations. -/
inductive Reachable : HookConfig → Prop where
  | init (dev gov : Pubkey) : Reachable (initConfig dev gov)
  | step (c : HookConfig) (op : GovOp) : Reachable c → Reachable (applyOp c op)

/-- Inductive invariant for the cap: the live cap is positive and any pending
proposed cap is positive (propose validates `new_cap > 0` before storing). -/
def CapInvariant (c : HookConfig) : Prop :=
  0 < c.wallet_cap_raw ∧ ∀ pu, c.pending_cap_update = some pu → 0 < pu.new_cap

/-- On the non-exempt path with valid account owners, `transfer_hook` reduces
to the saturating cap comparison. -/
lemma transfer_hook_nonexempt_eq (config : HookConfig) (destination : TokenAccount)
    (amount : Nat) (hne : destination.owner ≠ config.dev_wallet) :
    transfer_hook TOKEN_2022_PROGRAM_ID TOKEN_2022_PROGRAM_ID TOKEN_2022_PROGRAM_ID
      config destination amount =
    (if saturatingAdd destination.amount amount ≤ config.wallet_cap_raw
      then Except.ok () else Except.error HookError.WalletCapExceeded) := by
  unfold transfer_hook
  simp [hne]

/-- C1: for every transfer with valid account ownership whose destination
owner is not the exempt dev wallet, `transfer_hook` returns `Ok` iff
`saturating_add destination_balance amount ≤ wallet_cap_raw`, and rejects
with `WalletCapExceeded` otherwise. -/
theorem transferHook_allow_iff_cap (config : HookConfig) (destination : TokenAccount)
    (amount : Nat) (hne : destination.owner ≠ config.dev_wallet) :
    (transfer_hook TOKEN_2022_PROGRAM_ID TOKEN_2022_PROGRAM_ID TOKEN_2022_PROGRAM_ID
        config destination amount = .ok () ↔
      saturatingAdd destination.amount amount ≤ config.wallet_cap_raw) ∧
    (¬ saturatingAdd destination.amount amount ≤ config.wallet_cap_raw →
      transfer_hook TOKEN_2022_PROGRAM_ID TOKEN_2022_PROGRAM_ID TOKEN_2022_PROGRAM_ID
        config destination amount = .error .WalletCapExceeded) := by
  rw [transfer_hook_nonexempt_eq config destination amount hne]
  by_cases h : saturatingAdd destination.amount amount ≤ config.wallet_cap_raw <;>
    simp [h]

/-- Witness for C1: with the default cap 5_000_000_000, a non-exempt wallet
at balance 4_999_999_999 receiving 1 lands exactly at the cap and is allowed;
at balance 5_000_000_000 receiving 1 it is rejected with
`WalletCapExceeded`. -/
theorem transferHook_allow_iff_cap_witness :
    ((⟨3, 4999999999⟩ : TokenAccount).owner ≠ (initConfig 7 11).dev_wallet) ∧
    transfer_hook TOKEN_2022_PROGRAM_ID TOKEN_2022_PROGRAM_ID TOKEN_2022_PROGRAM_ID
      (initConfig 7 11) ⟨3, 4999999999⟩ 1 = .ok () ∧
    transfer_hook TOKEN_2022_PROGRAM_ID TOKEN_2022_PROGRAM_ID TOKEN_2022_PROGRAM_ID
      (initConfig 7 11) ⟨3, 5000000000⟩ 1 = .error .WalletCapExceeded :=
  ⟨by decide,
   (transferHook_allow_iff_cap (initConfig 7 11) ⟨3, 4999999999⟩ 1 (by decide)).1.mpr
     (by decide),
   (transferHook_allow_iff_cap (initConfig 7 11) ⟨3, 5000000000⟩ 1 (by decide)).2
     (by decide)⟩

/-- C2: whenever the destination token account is owned by the exempt dev
wallet, `transfer_hook` allows the transfer, for every amount and every
destination balance. -/
theorem devWallet_exempt (config : HookConfig) (destination : TokenAccount) (amount : Nat)
    (hdev : destination.owner = config.dev_wallet) :
    transfer_hook TOKEN_2022_PROGRAM_ID TOKEN_2022_PROGRAM_ID TOKEN_2022_PROGRAM_ID
      config destination amount = .ok () := by
  unfold transfer_hook
  simp [hdev]

/-- Witness for C2: the dev wallet at balance 0 receiving 1_000_000_000_000
(two hundred times the cap 5_000_000_000) is allowed. -/
theorem devWallet_exempt_witness :
    ((⟨7, 0⟩ : TokenAccount).owner = (initConfig 7 11).dev_wallet) ∧
    transfer_hook TOKEN_2022_PROGRAM_ID TOKEN_2022_PROGRAM_ID TOKEN_2022_PROGRAM_ID
      (initConfig 7 11) ⟨7, 0⟩ 1000000000000 = .ok () :=
  ⟨rfl, devWallet_exempt (initConfig 7 11) ⟨7, 0⟩ 1000000000000 rfl⟩

/-- C6: the post-transfer balance computation saturates instead of wrapping:
at destination balance `u64::MAX - 1000` and amount 2000 it yields
`u64::MAX`, and the (non-exempt) check rejects with `WalletCapExceeded`
whenever `wallet_cap_raw < u64::MAX`. -/
theorem saturation_no_overflow (config : HookConfig) (destination : TokenAccount)
    (hbal : destination.amount = U64_MAX - 1000)
    (hne : destination.owner ≠ config.dev_wallet) :
    saturatingAdd destination.amount 2000 = U64_MAX ∧
    (config.wallet_cap_raw < U64_MAX →
      transfer_hook TOKEN_2022_PROGRAM_ID TOKEN_2022_PROGRAM_ID TOKEN_2022_PROGRAM_ID
        config destination 2000 = .error .WalletCapExceeded) := by
  have hsat : saturatingAdd destination.amount 2000 = U64_MAX := by
    rw [hbal]
    unfold saturatingAdd U64_MAX
    omega
  refine ⟨hsat, fun hcap => ?_⟩
  rw [transfer_hook_nonexempt_eq config destination 2000 hne, hsat, if_neg (by omega)]

/-- Witness for C6: concrete saturation at `u64::MAX - 1000 + 2000` for a
non-exempt wallet under the default cap. -/
theorem saturation_no_overflow_witness :
    saturatingAdd (U64_MAX - 1000) 2000 = U64_MAX ∧
    transfer_hook TOKEN_2022_PROGRAM_ID TOKEN_2022_PROGRAM_ID TOKEN_2022_PROGRAM_ID
      (initConfig 7 11) ⟨3, U64_MAX - 1000⟩ 2000 = .error .WalletCapExceeded :=
  ⟨(saturation_no_overflow (initConfig 7 11) ⟨3, U64_MAX - 1000⟩ rfl (by decide)).1,
   (saturation_no_overflow (initConfig 7 11) ⟨3, U64_MAX - 1000⟩ rfl (by decide)).2
     (by decide)⟩

/-- C8: the pre-check path (`transfer_hook`) and the settlement path
(`execute`) compute the same decision on identical inputs: same account
program owners, same policy record, same parsed destination account, same
amount. -/
theorem precheck_and_settlement_agree (s m d : Pubkey) (config : HookConfig)
    (destination : TokenAccount) (amount : Nat) :
    transfer_hook s m d config destination amount =
      execute s m d config destination amount := rfl

/-- C3: for the governance authority, executing a cap update fails with
`NoPendingUpdate` when nothing is pending, fails with `TimelockNotExpired`
strictly before the pending `execution_time`, and at or after it installs the
pending cap and clears the pending update; concretely, a proposal at time `T`
cannot be executed at `T + 48h - 1s` but executes at `T + 48h`, setting the
cap to the proposed value. -/
theorem executeCapUpdate_spec (c : HookConfig) (caller : Pubkey) (now : Int)
    (hauth : caller = c.governance_authority) :
    (c.pending_cap_update = none →
      execute_wallet_cap_update c caller now = .error .NoPendingUpdate) ∧
    (∀ pu, c.pending_cap_update = some pu →
      (now < pu.execution_time →
        execute_wallet_cap_update c caller now = .error .TimelockNotExpired) ∧
      (pu.execution_time ≤ now →
        execute_wallet_cap_update c caller now =
          .ok { c with wallet_cap_raw := pu.new_cap, pending_cap_update := none })) ∧
    (∀ X T, 0 < X → X ≤ MAX_REASONABLE_CAP →
      ∃ c1, propose_wallet_cap_update c caller X T = .ok c1 ∧
        execute_wallet_cap_update c1 caller (T + TIMELOCK_DURATION - 1) =
          .error .TimelockNotExpired ∧
        ∃ c2, execute_wallet_cap_update c1 caller (T + TIMELOCK_DURATION) = .ok c2 ∧
          c2.wallet_cap_raw = X ∧ c2.pending_cap_update = none) := by
  refine ⟨?_, ?_, ?_⟩
  · intro hnone
    unfold execute_wallet_cap_update
    simp [hauth, hnone]
  · intro pu hpu
    constructor
    · intro hlt
      unfold execute_wallet_cap_update
      simp [hauth, hpu, hlt]
    · intro hge
      have hnl : ¬ now < pu.execution_time := by omega
      unfold execute_wallet_cap_update
      simp [hauth, hpu, hnl]
  · intro X T hX0 hX1
    have hX0' : ¬ X = 0 := by omega
    have hX1' : ¬ MAX_REASONABLE_CAP < X := by omega
    refine ⟨{ c with pending_cap_update := some ⟨X, T, T + TIMELOCK_DURATION⟩ }, ?_, ?_, ?_⟩
    · unfold propose_wallet_cap_update
      simp [hauth, hX0', hX1']
    · have h1 : T + TIMELOCK_DURATION - 1 < T + TIMELOCK_DURATION := by omega
      unfold execute_wallet_cap_update
      simp [hauth, h1]
    · refine ⟨{ c with wallet_cap_raw := X, pending_cap_update := none }, ?_, rfl, rfl⟩
      have h2 : ¬ T + TIMELOCK_DURATION < T + TIMELOCK_DURATION := by omega
      unfold execute_wallet_cap_update
      simp [hauth, h2]

/-- A concrete pending configuration: default policy with a proposed cap of
42 at time 0, executable from 172800 (48 hours later). -/
def cfgPending : HookConfig :=
  { version := 1
    dev_wallet := 7
    wallet_cap_raw := WALLET_CAP_RAW
    governance_authority := 11
    pending_cap_update := some ⟨42, 0, 172800⟩ }

/-- Witness for C3: executing one second before the 48-hour mark fails with
`TimelockNotExpired`, and executing exactly at it installs the proposed
cap 42 and clears the pending update. -/
theorem executeCapUpdate_spec_witness :
    execute_wallet_cap_update cfgPending 11 172799 = .error .TimelockNotExpired ∧
    execute_wallet_cap_update cfgPending 11 172800 =
      .ok { cfgPending with wallet_cap_raw := 42, pending_cap_update := none } :=
  ⟨((executeCapUpdate_spec cfgPending 11 172799 rfl).2.1 ⟨42, 0, 172800⟩ rfl).1
     (by decide),
   ((executeCapUpdate_spec cfgPending 11 172800 rfl).2.1 ⟨42, 0, 172800⟩ rfl).2
     (by decide)⟩

/-- C4: every governance operation (propose, execute, cancel, rotate,
migrate) by a caller other than the governance authority fails with
`UnauthorizedGovernance` and leaves the policy record unchanged. -/
theorem unauthorized_rejected (c : HookConfig) (op : GovOp)
    (h : op.caller ≠ c.governance_authority) :
    runOp c op = .error .UnauthorizedGovernance ∧ applyOp c op = c := by
  have h1 : runOp c op = .error .UnauthorizedGovernance := by
    cases op <;>
      simp only [runOp, GovOp.caller] at h ⊢ <;>
      simp [propose_wallet_cap_update, execute_wallet_cap_update,
        cancel_wallet_cap_update, update_governance_authority, migrate_config, h]
  exact ⟨h1, by simp [applyOp, h1]⟩

/-- Witness for C4: caller 5 is not the governance authority 11, so a
rotation attempt fails and the record is unchanged. -/
theorem unauthorized_rejected_witness :
    (GovOp.rotateOp 5 9).caller ≠ (initConfig 7 11).governance_authority ∧
    runOp (initConfig 7 11) (.rotateOp 5 9) = .error .UnauthorizedGovernance ∧
    applyOp (initConfig 7 11) (.rotateOp 5 9) = initConfig 7 11 :=
  ⟨by decide,
   (unauthorized_rejected (initConfig 7 11) (.rotateOp 5 9) (by decide)).1,
   (unauthorized_rejected (initConfig 7 11) (.rotateOp 5 9) (by decide)).2⟩

/-- C5: a valid second proposal unconditionally replaces a pending one: no
cancel is needed, the first proposal is discarded, and the single resulting
pending update carries the new cap, the new proposal time, and an execution
time 48 hours after it. -/
theorem propose_overwrites_pending (c : HookConfig) (caller : Pubkey) (X Y : Nat)
    (T T' : Int) (hauth : caller = c.governance_authority)
    (hX0 : 0 < X) (hX1 : X ≤ MAX_REASONABLE_CAP)
    (hY0 : 0 < Y) (hY1 : Y ≤ MAX_REASONABLE_CAP) :
    ∃ c1, propose_wallet_cap_update c caller X T = .ok c1 ∧
      c1.pending_cap_update = some ⟨X, T, T + TIMELOCK_DURATION⟩ ∧
      propose_wallet_cap_update c1 caller Y T' =
        .ok { c1 with pending_cap_update := some ⟨Y, T', T' + TIMELOCK_DURATION⟩ } := by
  have hX0' : ¬ X = 0 := by omega
  have hX1' : ¬ MAX_REASONABLE_CAP < X := by omega
  have hY0' : ¬ Y = 0 := by omega
  have hY1' : ¬ MAX_REASONABLE_CAP < Y := by omega
  refine ⟨{ c with pending_cap_update := some ⟨X, T, T + TIMELOCK_DURATION⟩ }, ?_, rfl, ?_⟩
  · unfold propose_wallet_cap_update
    simp [hauth, hX0', hX1']
  · unfold propose_wallet_cap_update
    simp [hauth, hY0', hY1']

/-- Witness for C5: proposing cap 1_000_000_000 at time 100, then cap
2_000_000_000 at time 500, leaves exactly the second proposal pending. -/
theorem propose_overwrites_pending_witness :
    ∃ c1, propose_wallet_cap_update (initConfig 7 11) 11 1000000000 100 = .ok c1 ∧
      c1.pending_cap_update = some ⟨1000000000, 100, 100 + TIMELOCK_DURATION⟩ ∧
      propose_wallet_cap_update c1 11 2000000000 500 =
        .ok { c1 with pending_cap_update := some ⟨2000000000, 500, 500 + TIMELOCK_DURATION⟩ } :=
  propose_overwrites_pending (initConfig 7 11) 11 1000000000 2000000000 100 500 rfl
    (by decide) (by decide) (by decide) (by decide)

/-- C10: a rotation by the current governance authority succeeds for every
new authority value — the all-zeros key, the current authority itself, or
any other key — and immediately overwrites `governance_authority`, with no
timelock and no validation of the new key. -/
theorem rotate_immediate (c : HookConfig) (caller new_authority : Pubkey)
    (hauth : caller = c.governance_authority) :
    update_governance_authority c caller new_authority =
      .ok { c with governance_authority := new_authority } := by
  unfold update_governance_authority
  simp [hauth]

/-- Witness for C10: rotation to the zero key, to the current authority, and
to an arbitrary key all succeed immediately. -/
theorem rotate_immediate_witness :
    update_governance_authority (initConfig 7 11) 11 0 =
      .ok { initConfig 7 11 with governance_authority := 0 } ∧
    update_governance_authority (initConfig 7 11) 11 11 =
      .ok { initConfig 7 11 with governance_authority := 11 } ∧
    update_governance_authority (initConfig 7 11) 11 999 =
      .ok { initConfig 7 11 with governance_authority := 999 } :=
  ⟨rotate_immediate (initConfig 7 11) 11 0 rfl,
   rotate_immediate (initConfig 7 11) 11 11 rfl,
   rotate_immediate (initConfig 7 11) 11 999 rfl⟩

/-- The initial configuration satisfies the cap invariant: the default cap
5_000_000_000 is positive and nothing is pending. -/
lemma capInvariant_init (dev gov : Pubkey) : CapInvariant (initConfig dev gov) := by
  constructor
  · simp [initConfig, WALLET_CAP_RAW]
  · intro pu hpu
    simp [initConfig] at hpu

/-- Any governance operation that succeeds preserves the cap invariant. -/
lemma runOp_ok_capInvariant (c : HookConfig) (op : GovOp) (c' : HookConfig)
    (hr : runOp c op = .ok c') (h : CapInvariant c) : CapInvariant c' := by
  obtain ⟨hcap, hpend⟩ := h
  cases op with
  | proposeOp caller new_cap now =>
    simp only [runOp] at hr
    unfold propose_wallet_cap_update at hr
    by_cases h1 : caller ≠ c.governance_authority
    · rw [if_pos h1] at hr; exact absurd hr (by simp)
    · rw [if_neg h1] at hr
      by_cases h2 : new_cap = 0
      · rw [if_pos h2] at hr; exact absurd hr (by simp)
      · rw [if_neg h2] at hr
        by_cases h3 : MAX_REASONABLE_CAP < new_cap
        · rw [if_pos h3] at hr; exact absurd hr (by simp)
        · rw [if_neg h3] at hr
          injection hr with hr
          subst hr
          refine ⟨hcap, fun pu hpu => ?_⟩
          have hpu' := Option.some.inj hpu
          subst hpu'
          exact Nat.pos_of_ne_zero h2
  | executeCapOp caller now =>
    simp only [runOp] at hr
    unfold execute_wallet_cap_update at hr
    by_cases h1 : caller ≠ c.governance_authority
    · rw [if_pos h1] at hr; exact absurd hr (by simp)
    · rw [if_neg h1] at hr
      split at hr
      next hp => exact absurd hr (by simp)
      next pu hp =>
        by_cases h2 : now < pu.execution_time
        · rw [if_pos h2] at hr; exact absurd hr (by simp)
        · rw [if_neg h2] at hr
          injection hr with hr
          subst hr
          exact ⟨hpend pu hp, fun pu' hpu' => by simp at hpu'⟩
  | cancelOp caller =>
    simp only [runOp] at hr
    unfold cancel_wallet_cap_update at hr
    by_cases h1 : caller ≠ c.governance_authority
    · rw [if_pos h1] at hr; exact absurd hr (by simp)
    · rw [if_neg h1] at hr
      split at hr
      next hp => exact absurd hr (by simp)
      next pu hp =>
        injection hr with hr
        subst hr
        exact ⟨hcap, fun pu' hpu' => by simp at hpu'⟩
  | rotateOp caller a =>
    simp only [runOp] at hr
    unfold update_governance_authority at hr
    by_cases h1 : caller ≠ c.governance_authority
    · rw [if_pos h1] at hr; exact absurd hr (by simp)
    · rw [if_neg h1] at hr
      injection hr with hr
      subst hr
      refine ⟨hcap, fun pu' hpu' => hpend pu' ?_⟩
      simpa using hpu'
  | migrateOp caller v =>
    simp only [runOp] at hr
    unfold migrate_config at hr
    by_cases h1 : caller ≠ c.governance_authority
    · rw [if_pos h1] at hr; exact absurd hr (by simp)
    · rw [if_neg h1] at hr
      by_cases h2 : v ≤ c.version
      · rw [if_pos h2] at hr; exact absurd hr (by simp)
      · rw [if_neg h2] at hr
        by_cases h3 : 1 < v
        · rw [if_pos h3] at hr; exact absurd hr (by simp)
        · rw [if_neg h3] at hr; exact absurd hr (by simp)

/-- Every governance operation — succeeding or failing — preserves the cap
invariant. -/
lemma applyOp_capInvariant (c : HookConfig) (op : GovOp) (h : CapInvariant c) :
    CapInvariant (applyOp c op) := by
  rcases hr : runOp c op with e | c'
  · simpa [applyOp, hr] using h
  · simpa [applyOp, hr] using runOp_ok_capInvariant c op c' hr h

/-- Every reachable configuration satisfies the cap invariant. -/
lemma reachable_capInvariant (c : HookConfig) (h : Reachable c) : CapInvariant c := by
  induction h with
  | init dev gov => exact capInvariant_init dev gov
  | step c op _ ih => exact applyOp_capInvariant c op ih

/-- C7: `wallet_cap_raw > 0` in every configuration reachable from
initialization: the default cap is positive, propose rejects a zero (or
over-ceiling) cap, and execute installs only a previously validated positive
pending cap. -/
theorem cap_raw_positive (c : HookConfig) (h : Reachable c) : 0 < c.wallet_cap_raw :=
  (reachable_capInvariant c h).1

/-- Witness for C7: the freshly initialized configuration is reachable and
its cap is positive. -/
theorem cap_raw_positive_witness :
    Reachable (initConfig 7 11) ∧ 0 < (initConfig 7 11).wallet_cap_raw :=
  ⟨Reachable.init 7 11, cap_raw_positive (initConfig 7 11) (Reachable.init 7 11)⟩

/-- C9: with no migration transform registered, every `migrate_config` call
fails and leaves the record (in particular `version`) unchanged; for an
authorized caller the error is `InvalidMigrationVersion` when the target does
not exceed the current version, `UnsupportedVersion` when the target exceeds
the supported ceiling 1, and `UnsupportedMigration` otherwise. -/
theorem migrate_always_fails (c : HookConfig) (caller : Pubkey) (t : Nat) :
    (∃ e, migrate_config c caller t = .error e) ∧
    applyOp c (GovOp.migrateOp caller t) = c ∧
    (caller = c.governance_authority →
      migrate_config c caller t =
        .error (if t ≤ c.version then .InvalidMigrationVersion
          else if 1 < t then .UnsupportedVersion else .UnsupportedMigration)) := by
  have hfail : ∀ c', migrate_config c caller t ≠ .ok c' := by
    intro c'
    unfold migrate_config
    split
    · simp
    · split
      · simp
      · split <;> simp
  refine ⟨?_, ?_, ?_⟩
  · rcases hm : migrate_config c caller t with e | c'
    · exact ⟨e, rfl⟩
    · exact absurd hm (hfail c')
  · rcases hm : migrate_config c caller t with e | c'
    · simp [applyOp, runOp, hm]
    · exact absurd hm (hfail c')
  · intro hauth
    unfold migrate_config
    by_cases h1 : t ≤ c.version <;> by_cases h2 : 1 < t <;> simp [hauth, h1, h2]

/-- Witness for C9: migrating the initial record (version 1) to version 2
fails with `UnsupportedVersion` and changes nothing. -/
theorem migrate_always_fails_witness :
    migrate_config (initConfig 7 11) 11 2 = .error .UnsupportedVersion ∧
    applyOp (initConfig 7 11) (.migrateOp 11 2) = initConfig 7 11 := by
  refine ⟨?_, (migrate_always_fails (initConfig 7 11) 11 2).2.1⟩
  have h := (migrate_always_fails (initConfig 7 11) 11 2).2.2 rfl
  simpa [initConfig] using h

end OneKxHook
